import Mathlib

/-!
Verification of the Val LibC compatibility shim (src/Library/Val/LibC.h).

Under `#ifdef _WIN32` the file defines three forwarding functions:

  void* aligned_alloc(size_t alignment, size_t size) {
      return _aligned_malloc(size, alignment);
  }
  void free(void* memblock) {
      _aligned_free(memblock);
  }
  FILE* fdopen(int fd, const char* mode) {
      return _fdopen(fd, mode);
  }

and an empty `#else` branch.

The embedding has two layers.

Behavioural layer: the host-native primitives (`_aligned_malloc`,
`_aligned_free`, `_fdopen`, and the host's generic deallocator, which the
shim never calls) are external to the repository, so they are modelled as an
abstract structure `Host` of world-passing functions over an abstract world
type `W`; pointers are `Option P` (with `none` as the null indicator) and
stream handles `Option S`.  Each shim function is translated from its C body
as a function of a host, a world and its C parameters.

Structural layer: facts about the shape of the source that are not visible
in the extensional behaviour — which host primitive each body invokes, in
which order the arguments are forwarded, and which symbols each branch of
the conditional compilation defines — are read off the source as small
data tables (`hostCallsOf`, `forwardedArgs`, `cParams`, `definedSymbols`).

A concrete executable host `winHost` instantiates the abstract host for the
witnesses: a world is a bump-pointer heap of aligned blocks plus a set of
open file descriptors.
-/

namespace LibCShim

/-- The host-native primitives visible to the translation unit, modelled
abstractly: `alignedMalloc` is `_aligned_malloc(size, alignment)`,
`alignedFree` is `_aligned_free`, `fdopenPrim` is `_fdopen`, and
`genericFree` is the host's generic deallocator (which the shim never
invokes).  Each is world-passing; `none` is the null pointer / null stream
indicator. -/
structure Host (W P S : Type) where
  alignedMalloc : W → Nat → Nat → W × Option P
  alignedFree : W → Option P → W
  genericFree : W → Option P → W
  fdopenPrim : W → Int → String → W × Option S

variable {W P S : Type}

namespace LibC

/-- LibC.h lines 5-7: `aligned_alloc(alignment, size)` returns
`_aligned_malloc(size, alignment)` — note the swapped argument order. -/
def aligned_alloc (h : Host W P S) (w : W) (alignment size : Nat) : W × Option P :=
  h.alignedMalloc w size alignment

/-- LibC.h lines 9-11: `free(memblock)` calls `_aligned_free(memblock)` and
returns nothing. -/
def free (h : Host W P S) (w : W) (memblock : Option P) : W × Unit :=
  (h.alignedFree w memblock, ())

/-- LibC.h lines 13-15: `fdopen(fd, mode)` returns `_fdopen(fd, mode)`. -/
def fdopen (h : Host W P S) (w : W) (fd : Int) (mode : String) : W × Option S :=
  h.fdopenPrim w fd mode

end LibC

/-- The three functions the `_WIN32` branch of LibC.h defines. -/
inductive ShimFn where
  | aligned_alloc
  | free
  | fdopen
deriving DecidableEq

/-- The host-native primitives named in LibC.h (plus the host's generic
allocator/deallocator pair, for stating what the shim does NOT call). -/
inductive HostPrim where
  | alignedMalloc
  | alignedFree
  | hostFdopen
  | genericMalloc
  | genericFree
deriving DecidableEq

/-- The C parameters and arguments occurring in LibC.h. -/
inductive CArg where
  | alignment
  | size
  | memblock
  | fd
  | mode
deriving DecidableEq

/-- Parameter order of each shim function's C signature, read off LibC.h:
`aligned_alloc(size_t alignment, size_t size)`, `free(void* memblock)`,
`fdopen(int fd, const char* mode)`. -/
def cParams : ShimFn → List CArg
  | .aligned_alloc => [.alignment, .size]
  | .free => [.memblock]
  | .fdopen => [.fd, .mode]

/-- The host primitives each shim function's body invokes, in order, read
off LibC.h: each body is a single call. -/
def hostCallsOf : ShimFn → List HostPrim
  | .aligned_alloc => [.alignedMalloc]
  | .free => [.alignedFree]
  | .fdopen => [.hostFdopen]

/-- The argument order each shim body forwards to its host primitive, read
off LibC.h: `_aligned_malloc(size, alignment)`, `_aligned_free(memblock)`,
`_fdopen(fd, mode)`. -/
def forwardedArgs : ShimFn → List CArg
  | .aligned_alloc => [.size, .alignment]
  | .free => [.memblock]
  | .fdopen => [.fd, .mode]

/-- The host deallocation primitive paired with each host allocation
primitive: `_aligned_malloc` blocks must go to `_aligned_free`, generic
blocks to the generic deallocator. -/
def dealloPairOf : HostPrim → Option HostPrim
  | .alignedMalloc => some .alignedFree
  | .genericMalloc => some .genericFree
  | _ => none

/-- The symbols the translation unit defines as a function of the `_WIN32`
flag: the `#ifdef _WIN32` branch defines the three functions, the `#else`
branch is empty. -/
def definedSymbols (win32 : Bool) : List String :=
  if win32 then ["aligned_alloc", "free", "fdopen"] else []

/-- `n` is a power of two. -/
def PowTwo (n : Nat) : Prop := ∃ k, n = 2 ^ k

/-!  A concrete executable host instantiating `Host`, used to evaluate the
conditional theorems at concrete inputs: a bump-pointer heap of aligned
blocks (address and size) plus a list of open file descriptors. -/

/-- Concrete host world: bump pointer, allocated aligned blocks
(address, size), open file descriptors. -/
structure WinWorld where
  next : Nat
  blocks : List (Nat × Nat)
  openFds : List Int
deriving DecidableEq

/-- Round `n` up to the next multiple of `a`. -/
def alignUp (n a : Nat) : Nat := (n + a - 1) / a * a

/-- Concrete `_aligned_malloc(size, alignment)`: rejects a zero alignment,
otherwise carves an aligned block off the bump pointer. -/
def winAlignedMalloc (w : WinWorld) (size alignment : Nat) : WinWorld × Option Nat :=
  if alignment = 0 then (w, none)
  else
    (⟨alignUp w.next alignment + size,
      (alignUp w.next alignment, size) :: w.blocks, w.openFds⟩,
     some (alignUp w.next alignment))

/-- Concrete `_aligned_free`: a no-op on null, otherwise removes the block
at the given address. -/
def winAlignedFree (w : WinWorld) (p : Option Nat) : WinWorld :=
  match p with
  | none => w
  | some a => ⟨w.next, w.blocks.filter (fun b => b.1 != a), w.openFds⟩

/-- Concrete generic deallocator of the host (never called by the shim):
modelled as leaving the aligned heap untouched. -/
def winGenericFree (w : WinWorld) (_ : Option Nat) : WinWorld := w

/-- The mode strings the concrete host's `_fdopen` accepts. -/
def legalModes : List String :=
  ["r", "w", "a", "r+", "w+", "a+", "rb", "wb", "ab", "rb+", "wb+", "ab+"]

/-- Concrete `_fdopen`: succeeds exactly on a legal mode and an open
descriptor, returning a stream handle recording the descriptor and mode. -/
def winFdopen (w : WinWorld) (fd : Int) (mode : String) : WinWorld × Option (Int × String) :=
  if mode ∈ legalModes ∧ fd ∈ w.openFds then (w, some (fd, mode)) else (w, none)

/-- The concrete host. -/
def winHost : Host WinWorld Nat (Int × String) where
  alignedMalloc := winAlignedMalloc
  alignedFree := winAlignedFree
  genericFree := winGenericFree
  fdopenPrim := winFdopen

/-- `p` is an allocated block of the concrete aligned heap. -/
abbrev winAllocated (w : WinWorld) (p : Nat) : Prop := ∃ sz, (p, sz) ∈ w.blocks

/-- `p` heads a block of at least `size` bytes in the concrete heap. -/
abbrev winWritable (w : WinWorld) (p size : Nat) : Prop :=
  ∃ sz, (p, sz) ∈ w.blocks ∧ size ≤ sz

/-- Legal mode strings of the concrete host. -/
abbrev winLegalMode (mode : String) : Prop := mode ∈ legalModes

/-- Open descriptors of a concrete world. -/
abbrev winValidFd (w : WinWorld) (fd : Int) : Prop := fd ∈ w.openFds

/-- A concrete stream handle wraps the descriptor it records. -/
abbrev winWraps (s : Int × String) (fd : Int) : Prop := s.1 = fd

/-!  Documented contracts of the host-native primitives.  The shim does not
implement allocation or validation itself, so claims about success and
failure results hold for any host satisfying the native primitive's
documented contract. -/

/-- Contract of `_aligned_malloc(size, alignment)`: for a power-of-two
alignment it yields null or an address that is a multiple of the alignment
heading a block writable for `size` bytes. -/
def AlignedMallocContract (h : Host W Nat S) (writable : W → Nat → Nat → Prop) : Prop :=
  ∀ w size alignment, PowTwo alignment →
    (h.alignedMalloc w size alignment).2 = none ∨
      ∃ p, (h.alignedMalloc w size alignment).2 = some p ∧ p % alignment = 0 ∧
        writable (h.alignedMalloc w size alignment).1 p size

/-- Contract of `_aligned_malloc`: a successfully returned pointer is an
allocated block of the post-call world. -/
def AlignedMallocRegisters (h : Host W Nat S) (allocated : W → Nat → Prop) : Prop :=
  ∀ w size alignment w' p, h.alignedMalloc w size alignment = (w', some p) →
    allocated w' p

/-- Contract of `_aligned_free` paired with `_aligned_malloc`: freeing an
allocated pointer releases the block at that address. -/
def AlignedFreeReleases (h : Host W Nat S) (allocated : W → Nat → Prop) : Prop :=
  ∀ w p, allocated w p → ¬ allocated (h.alignedFree w (some p)) p

/-- Contract of `_fdopen`: null exactly when the mode is illegal or the
descriptor is not open; otherwise a stream handle wrapping the
descriptor. -/
def FdopenContract (h : Host W P S) (legalMode : String → Prop)
    (validFd : W → Int → Prop) (wraps : S → Int → Prop) : Prop :=
  (∀ w fd mode, ¬ legalMode mode ∨ ¬ validFd w fd → (h.fdopenPrim w fd mode).2 = none) ∧
  (∀ w fd mode, legalMode mode → validFd w fd →
      ∃ s, (h.fdopenPrim w fd mode).2 = some s ∧ wraps s fd)

/-- The concrete host satisfies the aligned-allocation contract. -/
theorem winHost_alignedMallocContract : AlignedMallocContract winHost winWritable := by
  intro w size alignment hpow
  obtain ⟨k, rfl⟩ := hpow
  have h0 : (2 : Nat) ^ k ≠ 0 := by positivity
  right
  refine ⟨alignUp w.next (2 ^ k), ?_, ?_, ?_⟩
  · simp [winHost, winAlignedMalloc, if_neg h0]
  · simp [alignUp, Nat.mul_mod_left]
  · refine ⟨size, ?_, le_refl size⟩
    simp [winHost, winAlignedMalloc, if_neg h0]

/-- The concrete host registers every successfully returned block. -/
theorem winHost_alignedMallocRegisters : AlignedMallocRegisters winHost winAllocated := by
  intro w size alignment w' p h
  by_cases h0 : alignment = 0
  · simp [winHost, winAlignedMalloc, h0] at h
  · simp only [winHost, winAlignedMalloc, if_neg h0, Prod.mk.injEq,
      Option.some.injEq] at h
    obtain ⟨h1, h2⟩ := h
    subst h1
    subst h2
    exact ⟨size, List.mem_cons_self _ _⟩

/-- The concrete host's aligned free releases the freed block. -/
theorem winHost_alignedFreeReleases : AlignedFreeReleases winHost winAllocated := by
  intro w p _
  rintro ⟨sz, hmem⟩
  simp [winHost, winAlignedFree, List.mem_filter] at hmem

/-- The concrete host satisfies the descriptor-adaptation contract. -/
theorem winHost_fdopenContract : FdopenContract winHost winLegalMode winValidFd winWraps := by
  constructor
  · intro w fd mode hbad
    have hneg : ¬ (mode ∈ legalModes ∧ fd ∈ w.openFds) := by
      rintro ⟨h1, h2⟩
      rcases hbad with hb | hb
      · exact hb h1
      · exact hb h2
    simp [winHost, winFdopen, if_neg hneg]
  · intro w fd mode h1 h2
    refine ⟨(fd, mode), ?_, rfl⟩
    simp [winHost, winFdopen, if_pos (And.intro h1 h2)]

/-!  The claims. -/

/-- Claim C1: for every alignment and size, `aligned_alloc(alignment, size)`
returns exactly the result of the host-native aligned allocation primitive
applied with the arguments adapted to its order (size first, alignment
second), while its own C signature keeps the C11 order (alignment first,
size second). -/
theorem aligned_alloc_adapts_c11_order (h : Host W P S) (w : W) (alignment size : Nat) :
    LibC.aligned_alloc h w alignment size = h.alignedMalloc w size alignment ∧
    cParams ShimFn.aligned_alloc = [CArg.alignment, CArg.size] ∧
    forwardedArgs ShimFn.aligned_alloc = [CArg.size, CArg.alignment] ∧
    hostCallsOf ShimFn.aligned_alloc = [HostPrim.alignedMalloc] :=
  ⟨rfl, rfl, rfl, rfl⟩

/-- Claim C2: a block obtained from `aligned_alloc` is releasable through
`free`: given the host contract that `_aligned_free` releases
`_aligned_malloc` blocks, any block returned by the shim's `aligned_alloc`
is no longer allocated after the shim's `free`; and structurally, `free`
invokes exactly the native primitive paired with the one `aligned_alloc`
uses (`_aligned_free`, the pair of `_aligned_malloc`), never a generic
deallocation routine. -/
theorem free_matches_aligned_pair {S : Type} (h : Host W Nat S)
    (allocated : W → Nat → Prop)
    (hreg : AlignedMallocRegisters h allocated)
    (hrel : AlignedFreeReleases h allocated)
    (w w' : W) (alignment size p : Nat)
    (halloc : LibC.aligned_alloc h w alignment size = (w', some p)) :
    ¬ allocated ((LibC.free h w' (some p)).1) p ∧
    hostCallsOf ShimFn.aligned_alloc = [HostPrim.alignedMalloc] ∧
    dealloPairOf HostPrim.alignedMalloc = some HostPrim.alignedFree ∧
    hostCallsOf ShimFn.free = [HostPrim.alignedFree] ∧
    HostPrim.genericFree ∉ hostCallsOf ShimFn.free :=
  ⟨hrel w' p (hreg w size alignment w' p halloc), rfl, rfl, rfl, by decide⟩

/-- Witness for C2 at the concrete host: allocate with alignment 64 and
size 256 from the empty world, then free the returned block. -/
theorem free_matches_aligned_pair_witness :
    ¬ winAllocated ((LibC.free winHost ⟨256, [(0, 256)], [0, 1, 2]⟩ (some 0)).1) 0 ∧
    hostCallsOf ShimFn.aligned_alloc = [HostPrim.alignedMalloc] ∧
    dealloPairOf HostPrim.alignedMalloc = some HostPrim.alignedFree ∧
    hostCallsOf ShimFn.free = [HostPrim.alignedFree] ∧
    HostPrim.genericFree ∉ hostCallsOf ShimFn.free :=
  free_matches_aligned_pair winHost winAllocated winHost_alignedMallocRegisters
    winHost_alignedFreeReleases ⟨0, [], [0, 1, 2]⟩ ⟨256, [(0, 256)], [0, 1, 2]⟩
    64 256 0 rfl

/-- Claim C3: for every pointer, including null and pointers not obtained
from `aligned_alloc`, the shim's `free` invokes the native aligned
deallocation primitive and never the host's generic deallocator; and the
`_WIN32` branch defines the symbol `free`, replacing the generic one. -/
theorem free_always_calls_aligned_free (h : Host W P S) (w : W) (p : Option P) :
    LibC.free h w p = (h.alignedFree w p, ()) ∧
    hostCallsOf ShimFn.free = [HostPrim.alignedFree] ∧
    HostPrim.genericFree ∉ hostCallsOf ShimFn.free ∧
    "free" ∈ definedSymbols true :=
  ⟨rfl, rfl, by decide, by decide⟩

/-- Claim C4: for a power-of-two alignment and any size, given the host
primitive's contract, `aligned_alloc(alignment, size)` returns null or a
pointer whose address is a multiple of the alignment and which is writable
for `size` bytes. -/
theorem aligned_alloc_null_or_aligned {S : Type} (h : Host W Nat S)
    (writable : W → Nat → Nat → Prop)
    (hc : AlignedMallocContract h writable) (w : W) (alignment size : Nat)
    (hpow : PowTwo alignment) :
    (LibC.aligned_alloc h w alignment size).2 = none ∨
      ∃ p, (LibC.aligned_alloc h w alignment size).2 = some p ∧ p % alignment = 0 ∧
        writable (LibC.aligned_alloc h w alignment size).1 p size :=
  hc w size alignment hpow

/-- Witness for C4 at the concrete host: `aligned_alloc(64, 256)` from the
empty world. -/
theorem aligned_alloc_null_or_aligned_witness :
    (LibC.aligned_alloc winHost ⟨0, [], [0, 1, 2]⟩ 64 256).2 = none ∨
      ∃ p, (LibC.aligned_alloc winHost ⟨0, [], [0, 1, 2]⟩ 64 256).2 = some p ∧
        p % 64 = 0 ∧
        winWritable (LibC.aligned_alloc winHost ⟨0, [], [0, 1, 2]⟩ 64 256).1 p 256 :=
  aligned_alloc_null_or_aligned winHost winWritable winHost_alignedMallocContract
    ⟨0, [], [0, 1, 2]⟩ 64 256 ⟨6, rfl⟩

/-- Claim C5: the shim's `free` has no observable error path — its result
is always the unit value for any input — and, given the host contract that
the native aligned free is a no-op on null, calling it on the null
indicator leaves the world unchanged. -/
theorem free_null_noop (h : Host W P S) (w : W) (p : Option P)
    (hnull : h.alignedFree w none = w) :
    (LibC.free h w p).2 = () ∧ LibC.free h w none = (w, ()) := by
  refine ⟨rfl, ?_⟩
  simp [LibC.free, hnull]

/-- Witness for C5 at the concrete host: freeing null from a concrete
world is a no-op, and freeing any pointer returns unit. -/
theorem free_null_noop_witness :
    (LibC.free winHost ⟨0, [], [0, 1, 2]⟩ (some 5)).2 = () ∧
    LibC.free winHost ⟨0, [], [0, 1, 2]⟩ none = (⟨0, [], [0, 1, 2]⟩, ()) :=
  free_null_noop winHost ⟨0, [], [0, 1, 2]⟩ (some 5) rfl

/-- Claim C6: given the host primitive's contract, the shim's `fdopen`
returns null on every illegal mode or non-open descriptor (and, being a
total function, never crashes), and returns a non-null stream handle
wrapping the descriptor on every open descriptor and legal mode. -/
theorem fdopen_forwards_contract (h : Host W P S) (legalMode : String → Prop)
    (validFd : W → Int → Prop) (wraps : S → Int → Prop)
    (hc : FdopenContract h legalMode validFd wraps) :
    (∀ w fd mode, ¬ legalMode mode ∨ ¬ validFd w fd →
        (LibC.fdopen h w fd mode).2 = none) ∧
    (∀ w fd mode, legalMode mode → validFd w fd →
        ∃ s, (LibC.fdopen h w fd mode).2 = some s ∧ wraps s fd) :=
  ⟨hc.1, hc.2⟩

/-- Witness for C6 at the concrete host: descriptor 7 is not open so the
result is null; descriptor 1 with mode r yields a handle wrapping 1. -/
theorem fdopen_forwards_contract_witness :
    (LibC.fdopen winHost ⟨0, [], [0, 1, 2]⟩ 7 "r").2 = none ∧
    ∃ s, (LibC.fdopen winHost ⟨0, [], [0, 1, 2]⟩ 1 "r").2 = some s ∧ winWraps s 1 :=
  ⟨(fdopen_forwards_contract winHost winLegalMode winValidFd winWraps
      winHost_fdopenContract).1 ⟨0, [], [0, 1, 2]⟩ 7 "r" (Or.inr (by decide)),
   (fdopen_forwards_contract winHost winLegalMode winValidFd winWraps
      winHost_fdopenContract).2 ⟨0, [], [0, 1, 2]⟩ 1 "r" (by decide) (by decide)⟩

/-- Claim C7: each of the three operations returns the underlying host
primitive's result unchanged — failures included — and each body consists
of exactly one host call, so there is no retry, fallback, escalation or
extra diagnostic state. -/
theorem shim_passthrough_verbatim (h : Host W P S) (w : W) (alignment size : Nat)
    (p : Option P) (fd : Int) (mode : String) :
    LibC.aligned_alloc h w alignment size = h.alignedMalloc w size alignment ∧
    (LibC.free h w p).1 = h.alignedFree w p ∧
    LibC.fdopen h w fd mode = h.fdopenPrim w fd mode ∧
    (∀ f : ShimFn, (hostCallsOf f).length = 1) :=
  ⟨rfl, rfl, rfl, fun f => by cases f <;> rfl⟩

/-- Claim C8: the shim is stateless — each call's entire effect (result
and post-world) is exactly that of the single host primitive it forwards
to, and its result depends only on its arguments and the behaviour of the
relevant host primitive: two hosts agreeing on the primitives yield
identical results on identical inputs. -/
theorem shim_stateless (h₁ h₂ : Host W P S) (w : W) (alignment size : Nat)
    (p : Option P) (fd : Int) (mode : String)
    (hm : h₁.alignedMalloc = h₂.alignedMalloc)
    (hf : h₁.alignedFree = h₂.alignedFree)
    (hd : h₁.fdopenPrim = h₂.fdopenPrim) :
    LibC.aligned_alloc h₁ w alignment size = LibC.aligned_alloc h₂ w alignment size ∧
    LibC.free h₁ w p = LibC.free h₂ w p ∧
    LibC.fdopen h₁ w fd mode = LibC.fdopen h₂ w fd mode ∧
    (LibC.aligned_alloc h₁ w alignment size).1 = (h₁.alignedMalloc w size alignment).1 ∧
    (LibC.free h₁ w p).1 = h₁.alignedFree w p ∧
    (LibC.fdopen h₁ w fd mode).1 = (h₁.fdopenPrim w fd mode).1 := by
  refine ⟨?_, ?_, ?_, rfl, rfl, rfl⟩ <;>
    simp [LibC.aligned_alloc, LibC.free, LibC.fdopen, hm, hf, hd]

/-- Witness for C8 at the concrete host compared with itself. -/
theorem shim_stateless_witness :
    LibC.aligned_alloc winHost ⟨0, [], [0, 1, 2]⟩ 64 256 =
      LibC.aligned_alloc winHost ⟨0, [], [0, 1, 2]⟩ 64 256 ∧
    LibC.free winHost ⟨0, [], [0, 1, 2]⟩ (some 0) =
      LibC.free winHost ⟨0, [], [0, 1, 2]⟩ (some 0) ∧
    LibC.fdopen winHost ⟨0, [], [0, 1, 2]⟩ 1 "r" =
      LibC.fdopen winHost ⟨0, [], [0, 1, 2]⟩ 1 "r" ∧
    (LibC.aligned_alloc winHost ⟨0, [], [0, 1, 2]⟩ 64 256).1 =
      (winHost.alignedMalloc ⟨0, [], [0, 1, 2]⟩ 256 64).1 ∧
    (LibC.free winHost ⟨0, [], [0, 1, 2]⟩ (some 0)).1 =
      winHost.alignedFree ⟨0, [], [0, 1, 2]⟩ (some 0) ∧
    (LibC.fdopen winHost ⟨0, [], [0, 1, 2]⟩ 1 "r").1 =
      (winHost.fdopenPrim ⟨0, [], [0, 1, 2]⟩ 1 "r").1 :=
  shim_stateless winHost winHost ⟨0, [], [0, 1, 2]⟩ 64 256 (some 0) 1 "r" rfl rfl rfl

/-- Claim C9: when `_WIN32` is not set, the `#else` branch is empty and the
translation unit contributes no symbols at all, in particular none of the
three functions. -/
theorem non_win32_defines_no_symbols :
    definedSymbols false = [] ∧ ∀ s, s ∉ definedSymbols false :=
  ⟨rfl, fun s hs => by simp [definedSymbols] at hs⟩

/-- Claim C10: every call to any of the three operations terminates: each
body is a bounded, synchronous translation consisting of exactly one call
to a host primitive, with no loop and no recursion. -/
theorem shim_single_host_call (f : ShimFn) : (hostCallsOf f).length = 1 := by
  cases f <;> rfl

end LibCShim
